import Mathlib

/-!
Formal model of the Entropy-Escape arcade-survival game engine.

The definitions below are a shallow embedding of the TypeScript sources:
the current engine (src/game/GameEngine.ts, the file importing BOSS
constants and story beats), the earlier engine revision (the file defining
startNextLoop), the upgrade pool in src/game/constants.ts, and the
upgrade-draw helper in the Overlay component.  JavaScript numbers are
modelled as rationals; callback-hook invocations are modelled as an
appended event list; the localStorage checkpoint slot is modelled as an
Option field on the engine state; Math.random draws and the one
transcendental computation (the sqrt-scaled spawn interval, the homing
steer) are passed in as explicit parameters.
-/

namespace NeonLoop

/-- Constants from src/game/constants.ts. -/
def CANVAS_WIDTH : ℚ := 1280

def CANVAS_HEIGHT : ℚ := 720

def PLAYER_BASE_HP : ℚ := 100

def LOOP_DURATION : ℚ := 60

def BOSS_LOOP_INTERVAL : Nat := 5

def BOSS_BASE_HP : ℚ := 2000

def XP_TO_OVERDRIVE : ℚ := 50

def OVERDRIVE_DURATION : ℚ := 5

def PLAYER_NOVA_COOLDOWN : ℚ := 6

/-- Enemy kinds, from the EnemyType enum in src/types.ts. -/
inductive EnemyType where
  | SWARMER
  | DASHER
  | TANK
  | SNIPER
  | GUNNER
  | BOSS
deriving DecidableEq

/-- Behaviour state of an enemy (the string field named state in the source). -/
inductive EnemyState where
  | IDLE
  | CHARGING
  | DASHING
deriving DecidableEq

/-- Enemy record, the fields of the objects pushed into this.enemies
(the render-only color string is omitted). -/
structure Enemy where
  x : ℚ
  y : ℚ
  vx : ℚ
  vy : ℚ
  type : EnemyType
  hp : ℚ
  maxHp : ℚ
  radius : ℚ
  acceleration : ℚ
  maxSpeed : ℚ
  state : EnemyState
  attackTimer : ℚ
deriving DecidableEq

/-- Bullet record, the fields of objects pushed into this.bullets
(color omitted). -/
structure Bullet where
  x : ℚ
  y : ℚ
  vx : ℚ
  vy : ℚ
  radius : ℚ
  life : ℚ
  damage : ℚ
  isEnemy : Bool
deriving DecidableEq

/-- Pickup kinds (the literal union HEALTH | XP | DATA). -/
inductive PickupType where
  | HEALTH
  | XP
  | DATA
deriving DecidableEq

/-- Pickup record pushed into this.pickups. -/
structure Pickup where
  x : ℚ
  y : ℚ
  type : PickupType
deriving DecidableEq

/-- Gravity well pushed into this.gravWells by a gravity dash. -/
structure GravWell where
  x : ℚ
  y : ℚ
  life : ℚ
  radius : ℚ
  force : ℚ
deriving DecidableEq

/-- Player record of the current engine: position, timers, and the stat
bundle (the fields of this.player in the source). -/
structure Player where
  x : ℚ
  y : ℚ
  vx : ℚ
  vy : ℚ
  radius : ℚ
  hp : ℚ
  maxHp : ℚ
  xp : ℚ
  overdriveTimer : ℚ
  angle : ℚ
  dashing : Bool
  dashTimer : ℚ
  dashCooldownTimer : ℚ
  novaCooldownTimer : ℚ
  fireTimer : ℚ
  speedMult : ℚ
  damageMult : ℚ
  fireRateMult : ℚ
  projectileCount : ℚ
  piercing : ℚ
  dashCooldownMult : ℚ
  homing : ℚ
  orbitals : ℚ
  lifesteal : ℚ
  gravDash : Bool
deriving DecidableEq

/-- Stat snapshot stored in a checkpoint (CheckpointData.playerStats in
src/types.ts). -/
structure PlayerStats where
  hp : ℚ
  maxHp : ℚ
  xp : ℚ
  speedMult : ℚ
  damageMult : ℚ
  fireRateMult : ℚ
  projectileCount : ℚ
  piercing : ℚ
  dashCooldownMult : ℚ
  homing : ℚ
  orbitals : ℚ
  lifesteal : ℚ
  gravDash : Bool
deriving DecidableEq

/-- Checkpoint record written to localStorage (CheckpointData in
src/types.ts). -/
structure CheckpointData where
  loop : Nat
  score : ℚ
  playerStats : PlayerStats
  collectedLore : List String
deriving DecidableEq

/-- Persisted blob for the checkpoint key: either serialized valid
CheckpointData JSON, or a corrupt string on which JSON.parse throws. -/
inductive Blob where
  | valid (data : CheckpointData)
  | malformed
deriving DecidableEq

/-- Callback-hook invocations, recorded in order of occurrence. -/
inductive Event where
  | healthChange (hp maxHp : ℚ)
  | scoreChange (score : ℚ)
  | xpChange (xp maxXp level : ℚ)
  | abilityCooldown (cur max : ℚ)
  | loopChange (loop : Nat) (timer maxTime : ℚ)
  | levelUp
  | gameOver (score : ℚ)
  | dangerWarning
  | storyTrigger (beatId : String)
  | pauseToggle (paused : Bool)


/-- Engine state of the current engine (src/game/GameEngine.ts).  Purely
visual collections whose elements carry no gameplay state (particles,
damage numbers, dash ghosts, orbital markers) are tracked as counts. -/
structure Engine where
  isRunning : Bool
  isPaused : Bool
  isInCutscene : Bool
  hitStop : ℚ
  screenshake : ℚ
  loopTimer : ℚ
  loopCount : Nat
  loopMaxTime : ℚ
  warningTriggered : Bool
  isBossLoop : Bool
  hasSeenIntro : Bool
  player : Player
  bullets : List Bullet
  enemies : List Enemy
  particles : Nat
  damageNumbers : Nat
  orbitalCount : Nat
  dashGhosts : Nat
  pickups : List Pickup
  gravWells : List GravWell
  spawnTimer : ℚ
  score : ℚ
  difficultyMultiplier : ℚ
  combo : ℚ
  comboTimer : ℚ
  abilityReadyPlayed : Bool
  unlockedLoreIds : List String
  storedCheckpoint : Option Blob
  introStore : Option Bool
  events : List Event

/-- Push one damage number (createDamageNumber keeps only a count here). -/
def createDamageNumber (e : Engine) : Engine :=
  { e with damageNumbers := e.damageNumbers + 1 }

/-- Spawn count particles (createParticles; the random per-particle
attributes carry no gameplay state, so only the count is tracked). -/
def createParticles (e : Engine) (count : Nat) : Engine :=
  { e with particles := e.particles + count }

/-- Record a hook invocation. -/
def emit (e : Engine) (ev : Event) : Engine :=
  { e with events := e.events ++ [ev] }

/-- Cutscene trigger (playCutscene): sets isInCutscene and fires the
onStoryTrigger hook. -/
def playCutscene (e : Engine) (beatId : String) : Engine :=
  emit { e with isInCutscene := true } (.storyTrigger beatId)

/-- GameEngine.takeDamage of the current engine: an early return when hp
is already nonpositive, otherwise subtract the amount (with no clamp),
fire onHealthChange, push feedback, and fire onGameOver when the new hp
is nonpositive. -/
def takeDamage (e : Engine) (amount : ℚ) : Engine :=
  if e.player.hp ≤ 0 then e
  else
    let hp2 := e.player.hp - amount
    let e1 := { e with player.hp := hp2, screenshake := 10 }
    let e2 := createParticles (createDamageNumber (emit e1 (.healthChange hp2 e.player.maxHp))) 10
    if hp2 ≤ 0 then emit e2 (.gameOver e2.score) else e2

/-- Truncated-toward-zero integer part, as JavaScript division inside the
remainder operator behaves: the numerator is divided by the (positive)
denominator with truncation toward zero. -/
def jsTrunc (x : ℚ) : ℤ :=
  Int.tdiv x.num x.den

/-- JavaScript remainder operator on numbers. -/
def jsMod (x y : ℚ) : ℚ :=
  x - y * (jsTrunc (x / y) : ℤ)

/-- Overdrive block of GameEngine.update: while overdriveTimer is
positive it is decremented by dt and, on each half-second phase boundary,
hp is healed by 2 capped at maxHp with an onHealthChange hook and a
floating number. -/
def overdriveTick (e : Engine) (dt : ℚ) : Engine :=
  if 0 < e.player.overdriveTimer then
    let t2 := e.player.overdriveTimer - dt
    let e1 := { e with player.overdriveTimer := t2 }
    if jsMod t2 (1/2) < dt then
      let hp2 := min e1.player.maxHp (e1.player.hp + 2)
      createDamageNumber (emit { e1 with player.hp := hp2 }
        (.healthChange hp2 e1.player.maxHp))
    else e1
  else e

/-- Checkpoint snapshot assembled by GameEngine.saveCheckpoint. -/
def checkpointDataOf (e : Engine) : CheckpointData where
  loop := e.loopCount
  score := e.score
  playerStats :=
    { hp := e.player.hp
      maxHp := e.player.maxHp
      xp := e.player.xp
      speedMult := e.player.speedMult
      damageMult := e.player.damageMult
      fireRateMult := e.player.fireRateMult
      projectileCount := e.player.projectileCount
      piercing := e.player.piercing
      dashCooldownMult := e.player.dashCooldownMult
      homing := e.player.homing
      orbitals := e.player.orbitals
      lifesteal := e.player.lifesteal
      gravDash := e.player.gravDash }
  collectedLore := e.unlockedLoreIds

/-- GameEngine.saveCheckpoint: serialize the snapshot into the
localStorage slot and push a visual-feedback damage number. -/
def saveCheckpoint (e : Engine) : Engine :=
  createDamageNumber { e with storedCheckpoint := some (.valid (checkpointDataOf e)) }

/-- GameEngine.saveGlobalProgress: persist the has-seen-intro flag. -/
def saveGlobalProgress (e : Engine) : Engine :=
  { e with introStore := some e.hasSeenIntro }

/-- GameEngine.start: a no-op while already running, otherwise raise the
running flags and either play the intro cutscene (first ever run) or
write an initial checkpoint. -/
def start (e : Engine) : Engine :=
  if e.isRunning then e
  else
    let e1 := { e with isRunning := true, isPaused := false }
    if e1.hasSeenIntro = false then
      saveGlobalProgress { playCutscene e1 "INTRO" with hasSeenIntro := true }
    else saveCheckpoint e1

/-- GameEngine.reset of the current engine: restore player defaults and
stats (dashCooldownMult is left untouched by the source), clear entity
collections (damage numbers are not cleared by the source), reset loop
and scoring state, and fire the initial hooks. -/
def reset (e : Engine) : Engine :=
  let e1 :=
    { e with
      player :=
        { e.player with
          x := CANVAS_WIDTH / 2, y := CANVAS_HEIGHT / 2
          hp := PLAYER_BASE_HP, maxHp := PLAYER_BASE_HP, xp := 0
          vx := 0, vy := 0, dashing := false
          novaCooldownTimer := 0, overdriveTimer := 0
          speedMult := 1, damageMult := 1, fireRateMult := 1
          projectileCount := 1, piercing := 0, homing := 0
          orbitals := 0, lifesteal := 0, gravDash := false }
      enemies := [], bullets := [], particles := 0, orbitalCount := 0
      dashGhosts := 0, pickups := [], gravWells := []
      score := 0, combo := 0, comboTimer := 0
      loopCount := 1, loopTimer := LOOP_DURATION, difficultyMultiplier := 1
      hitStop := 0, warningTriggered := false, isBossLoop := false
      abilityReadyPlayed := false }
  emit (emit (emit (emit e1
    (.healthChange e1.player.hp e1.player.maxHp))
    (.scoreChange 0))
    (.xpChange 0 XP_TO_OVERDRIVE 0))
    (.abilityCooldown 0 PLAYER_NOVA_COOLDOWN)

/-- Boss entity pushed by GameEngine.spawnBoss for a given loop count. -/
def bossEnemy (loopCount : Nat) : Enemy where
  x := CANVAS_WIDTH / 2
  y := -100
  vx := 0
  vy := 100
  type := .BOSS
  hp := BOSS_BASE_HP * (1 + (loopCount : ℚ) * (1/2))
  maxHp := BOSS_BASE_HP * (1 + (loopCount : ℚ) * (1/2))
  radius := 40
  acceleration := 300
  maxSpeed := 80
  state := .IDLE
  attackTimer := 2

/-- GameEngine.spawnBoss: replace the enemy list with a single scaled
boss, shake the screen and play the boss-approach cutscene. -/
def spawnBoss (e : Engine) : Engine :=
  playCutscene { e with enemies := [bossEnemy e.loopCount], screenshake := 20 }
    "BOSS_APPROACH"

/-- GameEngine.triggerLoopReset of the current engine: optional loop-1
story beat, advance the loop counter, reset the timer and difficulty,
auto-save, then either spawn a boss (every fifth loop) or signal
level-up, and report the loop change. -/
def triggerLoopReset (e : Engine) : Engine :=
  let e1 := if e.loopCount = 1 then playCutscene e "LOOP_1_END" else e
  let e2 :=
    { e1 with
      loopCount := e1.loopCount + 1
      loopTimer := LOOP_DURATION
      loopMaxTime := LOOP_DURATION
      difficultyMultiplier := e1.difficultyMultiplier + 1/5
      warningTriggered := false }
  let e3 := saveCheckpoint e2
  let e4 :=
    if e3.loopCount % BOSS_LOOP_INTERVAL = 0 then
      spawnBoss { e3 with isBossLoop := true }
    else emit e3 .levelUp
  emit e4 (.loopChange e4.loopCount e4.loopTimer e4.loopMaxTime)

/-- JavaScript lenient read x || 0, applied by loadCheckpoint to the
lifesteal field. -/
def jsOr0 (x : ℚ) : ℚ :=
  if x = 0 then 0 else x

/-- GameEngine.loadCheckpoint: with no stored record, full reset plus
start; with a stored record, JSON.parse either throws (malformed, the
error propagates) or yields data from which loop, score, difficulty,
stats and lore are restored, entities are cleared, the player is
recentered, a boss is spawned when resuming into a boss loop, and the
engine is started. -/
def loadCheckpoint (e : Engine) : Except Unit Engine :=
  match e.storedCheckpoint with
  | none => .ok (start (reset e))
  | some .malformed => .error ()
  | some (.valid d) =>
    let e1 :=
      { e with
        loopCount := d.loop
        score := d.score
        difficultyMultiplier := 1 + (d.loop : ℚ) * (1/5)
        player :=
          { e.player with
            hp := d.playerStats.hp
            maxHp := d.playerStats.maxHp
            xp := d.playerStats.xp
            speedMult := d.playerStats.speedMult
            damageMult := d.playerStats.damageMult
            fireRateMult := d.playerStats.fireRateMult
            projectileCount := d.playerStats.projectileCount
            piercing := d.playerStats.piercing
            dashCooldownMult := d.playerStats.dashCooldownMult
            homing := d.playerStats.homing
            orbitals := d.playerStats.orbitals
            lifesteal := jsOr0 d.playerStats.lifesteal
            gravDash := (d.playerStats.gravDash || false)
            x := CANVAS_WIDTH / 2, y := CANVAS_HEIGHT / 2 }
        unlockedLoreIds := d.collectedLore
        enemies := [], bullets := [], particles := 0
        pickups := [], gravWells := []
        loopTimer := LOOP_DURATION
        isBossLoop := decide (d.loop % BOSS_LOOP_INTERVAL = 0) }
    let e2 := if e1.isBossLoop then spawnBoss e1 else e1
    let e3 := start e2
    .ok (emit (emit e3 (.healthChange e3.player.hp e3.player.maxHp))
      (.loopChange e3.loopCount e3.loopTimer e3.loopMaxTime))

/-- GameEngine.killEnemy: remove the enemy, award combo-scaled score,
drop a pickup (the three Math.random draws are passed in), and treat a
boss kill as a loop completion.  List removal of the mutated record
mirrors indexOf plus splice. -/
def killEnemy (e : Engine) (enemy : Enemy) (rLifesteal rDrop1 rDrop2 : ℚ) : Engine :=
  let e1 := createParticles { e with enemies := e.enemies.erase enemy } 10
  let e2 := emit
    { e1 with
      score := e1.score + 100 * e1.combo
      combo := e1.combo + 1
      comboTimer := 2 }
    (.scoreChange (e1.score + 100 * e1.combo))
  let e3 :=
    if 0 < e2.player.lifesteal ∧ rLifesteal < e2.player.lifesteal then
      { e2 with pickups := e2.pickups ++ [⟨enemy.x, enemy.y, .HEALTH⟩] }
    else e2
  let e4 :=
    if rDrop1 < 1/10 then
      { e3 with pickups := e3.pickups ++ [⟨enemy.x, enemy.y, .HEALTH⟩] }
    else if rDrop2 < 1/20 then
      { e3 with pickups := e3.pickups ++ [⟨enemy.x, enemy.y, .DATA⟩] }
    else
      { e3 with pickups := e3.pickups ++ [⟨enemy.x, enemy.y, .XP⟩] }
  if enemy.type = .BOSS then triggerLoopReset { e4 with isBossLoop := false }
  else e4

/-- Per-tick bullet integration: position plus velocity times dt, life
minus dt. -/
def moveBullet (b : Bullet) (dt : ℚ) : Bullet :=
  { b with x := b.x + b.vx * dt, y := b.y + b.vy * dt, life := b.life - dt }

/-- Removal condition shared by both bullet branches: lifetime expired or
outside the arena. -/
def bulletExpired (b : Bullet) : Bool :=
  decide (b.life ≤ 0) || decide (b.x < 0) || decide (b.x > CANVAS_WIDTH) ||
    decide (b.y < 0) || decide (b.y > CANVAS_HEIGHT)

/-- Circle-circle overlap by the squared-distance test of the source. -/
def circleHit (x1 y1 r1 x2 y2 r2 : ℚ) : Bool :=
  decide ((x1 - x2) ^ 2 + (y1 - y2) ^ 2 < (r1 + r2) * (r1 + r2))

/-- Enemy-bullet branch of the bullet loop in GameEngine.update: move and
age the bullet, drop it when expired or out of bounds, and on overlap
with the player either pass through (while dashing) or apply damage and
destroy the bullet.  The second component is none when the bullet is
removed. -/
def enemyBulletStep (e : Engine) (b : Bullet) (dt : ℚ) : Engine × Option Bullet :=
  let b2 := moveBullet b dt
  if bulletExpired b2 then (e, none)
  else if circleHit b2.x b2.y b2.radius e.player.x e.player.y e.player.radius then
    if e.player.dashing then (e, some b2)
    else (createParticles (takeDamage e b2.damage) 5, none)
  else (e, some b2)

/-- First enemy in list order overlapping the bullet, split as the
enemies before it, the enemy, and the enemies after it (the for loop with
break of the source). -/
def splitFirstHit (b : Bullet) : List Enemy → Option (List Enemy × Enemy × List Enemy)
  | [] => none
  | en :: rest =>
    if circleHit b.x b.y b.radius en.x en.y en.radius then some ([], en, rest)
    else
      match splitFirstHit b rest with
      | none => none
      | some (pre, hit, post) => some (en :: pre, hit, post)

/-- Player-bullet branch of the bullet loop, after movement: drop the
bullet when expired or out of bounds, otherwise damage the first
overlapping enemy (overdrive multiplies damage by 1.5), kill it when its
hp is exhausted, and consume the bullet only when the player has no
piercing. -/
def playerBulletCore (e : Engine) (b : Bullet) (r1 r2 r3 : ℚ) : Engine × Option Bullet :=
  if bulletExpired b then (e, none)
  else
    match splitFirstHit b e.enemies with
    | none => (e, some b)
    | some (pre, en, post) =>
      let dmg := if 0 < e.player.overdriveTimer then b.damage * (3/2) else b.damage
      let en2 := { en with hp := en.hp - dmg }
      let e1 := createParticles (createDamageNumber { e with enemies := pre ++ en2 :: post }) 2
      let e2 := if en2.hp ≤ 0 then killEnemy e1 en2 r1 r2 r3 else e1
      if e2.player.piercing = 0 then (e2, none) else (e2, some b)

/-- Full player-bullet step: optional homing steer (the transcendental
angle computation is the steer parameter), movement, then the core
collision logic. -/
def playerBulletStep (e : Engine) (steer : Bullet → Bullet) (b : Bullet)
    (dt r1 r2 r3 : ℚ) : Engine × Option Bullet :=
  playerBulletCore e (moveBullet (if 0 < e.player.homing then steer b else b) dt) r1 r2 r3

/-- True when a boss entity is present in the enemy list (the some check
of GameEngine.update). -/
def bossAlive (enemies : List Enemy) : Bool :=
  enemies.any fun en => decide (en.type = .BOSS)

/-- Periodic-spawner gate of GameEngine.update: decrement the spawn
timer; only when it has elapsed and no boss is alive, push one spawned
enemy and reset the timer.  The random enemy and the sqrt-scaled reset
interval are passed in as parameters. -/
def spawnStep (e : Engine) (dt : ℚ) (newEnemy : Enemy) (newTimer : ℚ) : Engine :=
  let t := e.spawnTimer - dt
  if t ≤ 0 ∧ bossAlive e.enemies = false then
    { e with enemies := e.enemies ++ [newEnemy], spawnTimer := newTimer }
  else { e with spawnTimer := t }

/-- Identifiers of the eleven GEAR_POOL upgrades in
src/game/constants.ts. -/
inductive UpgradeId where
  | dmg_boost
  | speed_boost
  | fire_rate
  | plasma_siphon
  | grav_dash
  | multi_shot
  | piercing
  | homingRounds
  | orbitals
  | dash_cooldown
  | corrupted_power
deriving DecidableEq

/-- Effect closures of the GEAR_POOL entries, as functions on the player
record. -/
def applyEffect : UpgradeId → Player → Player
  | .dmg_boost, p => { p with damageMult := p.damageMult + 1/4 }
  | .speed_boost, p => { p with speedMult := p.speedMult + 1/5 }
  | .fire_rate, p => { p with fireRateMult := p.fireRateMult + 1/5 }
  | .plasma_siphon, p => { p with lifesteal := p.lifesteal + 1/20 }
  | .grav_dash, p => { p with gravDash := true }
  | .multi_shot, p =>
    { p with projectileCount := p.projectileCount + 1, damageMult := p.damageMult * (17/20) }
  | .piercing, p => { p with piercing := 1 }
  | .homingRounds, p => { p with homing := 1 }
  | .orbitals, p => { p with orbitals := p.orbitals + 1 }
  | .dash_cooldown, p => { p with dashCooldownMult := p.dashCooldownMult * (7/10) }
  | .corrupted_power, p =>
    { p with
      damageMult := p.damageMult * 2
      maxHp := p.maxHp * (1/2)
      hp := min p.hp (p.maxHp * (1/2)) }

/-- Upgrade pool of src/game/constants.ts, in source order. -/
def GEAR_POOL : List UpgradeId :=
  [.dmg_boost, .speed_boost, .fire_rate, .plasma_siphon, .grav_dash, .multi_shot,
   .piercing, .homingRounds, .orbitals, .dash_cooldown, .corrupted_power]

/-- The getRandomUpgrades helper of the Overlay component: a uniformly
shuffled copy of the pool (passed in, since the comparator draws
Math.random) truncated to the requested count. -/
def getRandomUpgrades (shuffled : List UpgradeId) (count : Nat) : List UpgradeId :=
  shuffled.take count

/-- GameEngine.applyUpgrade of the current engine: run the effect closure
against the engine state and auto-save.  The loop counter is not
touched. -/
def applyUpgrade (e : Engine) (u : UpgradeId) : Engine :=
  saveCheckpoint { e with player := applyEffect u e.player }

/-- Player record of the earlier engine revision (the file defining
startNextLoop); its stat bundle stops at orbitals. -/
structure PlayerV2 where
  x : ℚ
  y : ℚ
  vx : ℚ
  vy : ℚ
  radius : ℚ
  hp : ℚ
  maxHp : ℚ
  xp : ℚ
  overdriveTimer : ℚ
  angle : ℚ
  dashing : Bool
  dashTimer : ℚ
  dashCooldownTimer : ℚ
  novaCooldownTimer : ℚ
  fireTimer : ℚ
  speedMult : ℚ
  damageMult : ℚ
  fireRateMult : ℚ
  projectileCount : ℚ
  piercing : ℚ
  dashCooldownMult : ℚ
  homing : ℚ
  orbitals : ℚ
deriving DecidableEq

/-- Engine state of the earlier engine revision: no boss machinery, no
gravity wells, no checkpoint persistence. -/
structure EngineV2 where
  isRunning : Bool
  isPaused : Bool
  hitStop : ℚ
  screenshake : ℚ
  loopTimer : ℚ
  loopCount : Nat
  loopMaxTime : ℚ
  warningTriggered : Bool
  player : PlayerV2
  bullets : List Bullet
  enemies : List Enemy
  particles : Nat
  damageNumbers : Nat
  orbitalCount : Nat
  dashGhosts : Nat
  pickups : List Pickup
  spawnTimer : ℚ
  score : ℚ
  difficultyMultiplier : ℚ
  combo : ℚ
  comboTimer : ℚ
  unlockedLoreIds : List String
  events : List Event

/-- Start method of the earlier engine revision: raise the running
flags unless already running. -/
def startV2 (e : EngineV2) : EngineV2 :=
  if e.isRunning then e else { e with isRunning := true, isPaused := false }

/-- Record a hook invocation on the earlier engine. -/
def emitV2 (e : EngineV2) (ev : Event) : EngineV2 :=
  { e with events := e.events ++ [ev] }

/-- GameEngine.startNextLoop of the earlier engine revision: recenter and
stop the player, clear transient entities (enemies, bullets, particles,
orbital markers, dash ghosts, pickups), reset the loop timer and
hit-stop, restore half of max health capped at max, fire the health and
ability-cooldown hooks, clear the warning latch and restart. -/
def startNextLoop (e : EngineV2) : EngineV2 :=
  let e1 :=
    { e with
      player :=
        { e.player with
          x := CANVAS_WIDTH / 2, y := CANVAS_HEIGHT / 2, vx := 0, vy := 0 }
      enemies := [], bullets := [], particles := 0, orbitalCount := 0
      dashGhosts := 0, pickups := []
      loopTimer := LOOP_DURATION, hitStop := 0 }
  let hp2 := min e1.player.maxHp (e1.player.hp + e1.player.maxHp * (1/2))
  let e2 := emitV2 { e1 with player.hp := hp2 } (.healthChange hp2 e1.player.maxHp)
  let e3 := emitV2 e2 (.abilityCooldown 0 PLAYER_NOVA_COOLDOWN)
  startV2 { e3 with warningTriggered := false }

/-- One externally driven health-relevant step of a run on the current
engine: a takeDamage call or one tick of the overdrive block. -/
inductive RunOp where
  | damage (amount : ℚ)
  | tick (dt : ℚ)

/-- Apply one run operation. -/
def runStep (e : Engine) : RunOp → Engine
  | .damage a => takeDamage e a
  | .tick dt => overdriveTick e dt

/-- Apply a sequence of run operations in order. -/
def runOps (e : Engine) (ops : List RunOp) : Engine :=
  ops.foldl runStep e

/-- Number of onGameOver invocations recorded so far. -/
def gameOverCount (e : Engine) : Nat :=
  (e.events.filter fun ev =>
    match ev with
    | .gameOver _ => true
    | _ => false).length

/-- Number of onLevelUp invocations recorded so far. -/
def levelUpCount (e : Engine) : Nat :=
  (e.events.filter fun ev =>
    match ev with
    | .levelUp => true
    | _ => false).length

/-- Player field initializers of the current engine class. -/
def initialPlayer : Player where
  x := CANVAS_WIDTH / 2
  y := CANVAS_HEIGHT / 2
  vx := 0
  vy := 0
  radius := 12
  hp := PLAYER_BASE_HP
  maxHp := PLAYER_BASE_HP
  xp := 0
  overdriveTimer := 0
  angle := 0
  dashing := false
  dashTimer := 0
  dashCooldownTimer := 0
  novaCooldownTimer := 0
  fireTimer := 0
  speedMult := 1
  damageMult := 1
  fireRateMult := 1
  projectileCount := 1
  piercing := 0
  dashCooldownMult := 1
  homing := 0
  orbitals := 0
  lifesteal := 0
  gravDash := false

/-- Engine field initializers of the current engine class, with an empty
persisted store. -/
def initialEngine : Engine where
  isRunning := false
  isPaused := false
  isInCutscene := false
  hitStop := 0
  screenshake := 0
  loopTimer := LOOP_DURATION
  loopCount := 1
  loopMaxTime := LOOP_DURATION
  warningTriggered := false
  isBossLoop := false
  hasSeenIntro := false
  player := initialPlayer
  bullets := []
  enemies := []
  particles := 0
  damageNumbers := 0
  orbitalCount := 0
  dashGhosts := 0
  pickups := []
  gravWells := []
  spawnTimer := 0
  score := 0
  difficultyMultiplier := 1
  combo := 0
  comboTimer := 0
  abilityReadyPlayed := false
  unlockedLoreIds := []
  storedCheckpoint := none
  introStore := none
  events := []

/-- Sample ordinary enemy (the SWARMER default of spawnEnemy at loop 1). -/
def swarmerEx : Enemy :=
  ⟨100, 100, 0, 0, .SWARMER, 30, 30, 15, 800, 150, .IDLE, 0⟩

/-- Sample player bullet away from everything. -/
def bulletEx : Bullet :=
  ⟨200, 200, 0, 0, 4, 2, 25, false⟩

/-- Concrete state for the loop-transition check: loop 2, a live enemy
and bullet on the field, and a wounded player. -/
def eC1 : Engine :=
  { initialEngine with
    loopCount := 2, enemies := [swarmerEx], bullets := [bulletEx],
    player.hp := 40 }

/-- Concrete state for the boss-entry loop transition: loop 4 with a
live bullet on the field. -/
def eC1boss : Engine :=
  { initialEngine with loopCount := 4, bullets := [bulletEx] }

/-- Concrete state for the hp-clamp check: a player at 10 hp. -/
def eC2 : Engine :=
  { initialEngine with player.hp := 10 }

/-- Concrete state for the upgrade-selection check: loop 2. -/
def eC4 : Engine :=
  { initialEngine with loopCount := 2 }

/-- Concrete state for the no-upgrade boss-entry expiry: loop 4. -/
def eC4boss : Engine :=
  { initialEngine with loopCount := 4, score := 500 }

/-- Concrete state for the resume check: a corrupt persisted blob. -/
def eC5 : Engine :=
  { initialEngine with storedCheckpoint := some .malformed }

/-- Concrete state for the dash check: a dashing player. -/
def eC6 : Engine :=
  { initialEngine with player.dashing := true }

/-- Enemy bullet sitting on the player centre. -/
def bC6 : Bullet :=
  ⟨640, 360, 0, 0, 6, 4, 15, true⟩

/-- Tough enemy overlapping the sample player bullet below. -/
def enC7 : Enemy :=
  ⟨500, 300, 0, 0, .SWARMER, 100, 100, 15, 800, 150, .IDLE, 0⟩

/-- Player bullet overlapping that enemy. -/
def bC7 : Bullet :=
  ⟨500, 300, 0, 0, 4, 1, 25, false⟩

/-- Concrete state for the piercing check: that enemy on the field. -/
def eC7 : Engine :=
  { initialEngine with enemies := [enC7] }

/-- Concrete state for the spawn-gating check: a live boss with the
spawn timer already elapsed. -/
def eC8 : Engine :=
  { initialEngine with enemies := [bossEnemy 5], spawnTimer := 0 }

/-- Concrete state for the boss-spawn check: loop 4, about to enter
loop 5. -/
def eC9 : Engine :=
  { initialEngine with loopCount := 4 }

/-- Concrete state for the game-over check: overdrive running. -/
def eC10 : Engine :=
  { initialEngine with player.overdriveTimer := 5 }

/-- Run refuting at-most-one game over: lethal hit, a post-mortem hit
that is a no-op, an overdrive heal tick that revives to 1 hp, then a
second lethal hit. -/
def opsC10 : List RunOp :=
  [.damage 101, .damage 5, .tick 1, .damage 5]

/-- Discriminator for takeDamage-only runs. -/
def isDamage : RunOp → Bool
  | .damage _ => true
  | .tick _ => false

/-- Concrete dead-player state. -/
def eDead : Engine :=
  { initialEngine with player.hp := 0 }

/-- Concrete run made of takeDamage calls only. -/
def opsDamageOnly : List RunOp :=
  [.damage 101, .damage 5]

/-- Lenient read is the identity on rationals. -/
lemma jsOr0_eq (x : ℚ) : jsOr0 x = x := by
  unfold jsOr0
  split <;> simp_all

/-- Hp after takeDamage: the guard keeps a nonpositive hp, otherwise the
full amount is subtracted with no clamp. -/
lemma takeDamage_player_hp (e : Engine) (a : ℚ) :
    (takeDamage e a).player.hp =
      if e.player.hp ≤ 0 then e.player.hp else e.player.hp - a := by
  simp only [takeDamage, createParticles, createDamageNumber, emit]
  by_cases h1 : e.player.hp ≤ 0
  · simp [h1]
  · by_cases h2 : e.player.hp - a ≤ 0 <;> simp [h1, h2]

/-- The takeDamage guard is a complete no-op on a dead player. -/
lemma takeDamage_noop (e : Engine) (a : ℚ) (h : e.player.hp ≤ 0) :
    takeDamage e a = e := by
  simp only [takeDamage, h, if_true]

/-- Max hp is untouched by takeDamage. -/
lemma takeDamage_player_maxHp (e : Engine) (a : ℚ) :
    (takeDamage e a).player.maxHp = e.player.maxHp := by
  simp only [takeDamage, createParticles, createDamageNumber, emit]
  by_cases h1 : e.player.hp ≤ 0
  · simp [h1]
  · by_cases h2 : e.player.hp - a ≤ 0 <;> simp [h1, h2]

/-- The overdrive timer is untouched by takeDamage. -/
lemma takeDamage_player_overdriveTimer (e : Engine) (a : ℚ) :
    (takeDamage e a).player.overdriveTimer = e.player.overdriveTimer := by
  simp only [takeDamage, createParticles, createDamageNumber, emit]
  by_cases h1 : e.player.hp ≤ 0
  · simp [h1]
  · by_cases h2 : e.player.hp - a ≤ 0 <;> simp [h1, h2]

/-- Count of onGameOver events after takeDamage: one is appended exactly
when a live player is brought to zero or below. -/
lemma gameOverCount_takeDamage (e : Engine) (a : ℚ) :
    gameOverCount (takeDamage e a) =
      gameOverCount e +
        (if 0 < e.player.hp ∧ e.player.hp - a ≤ 0 then 1 else 0) := by
  simp only [takeDamage, createParticles, createDamageNumber, emit]
  by_cases h1 : e.player.hp ≤ 0
  · have : ¬ (0 < e.player.hp ∧ e.player.hp - a ≤ 0) := by
      rintro ⟨h, _⟩; linarith
    simp [h1, this, gameOverCount]
  · by_cases h2 : e.player.hp - a ≤ 0
    · have : 0 < e.player.hp ∧ e.player.hp - a ≤ 0 := ⟨by linarith, h2⟩
      simp [h1, h2, this, gameOverCount, List.filter_append]
    · have : ¬ (0 < e.player.hp ∧ e.player.hp - a ≤ 0) := by
        rintro ⟨_, h⟩; exact h2 h
      simp [h1, h2, this, gameOverCount, List.filter_append]

/-- Hp after one overdrive tick: healed by 2 capped at max exactly when
overdrive is running and the half-second phase boundary is crossed. -/
lemma overdriveTick_player_hp (e : Engine) (dt : ℚ) :
    (overdriveTick e dt).player.hp =
      if 0 < e.player.overdriveTimer ∧
          jsMod (e.player.overdriveTimer - dt) (1/2) < dt then
        min e.player.maxHp (e.player.hp + 2)
      else e.player.hp := by
  simp only [overdriveTick, createDamageNumber, emit]
  by_cases h1 : 0 < e.player.overdriveTimer
  · rw [if_pos h1]
    by_cases h2 : jsMod (e.player.overdriveTimer - dt) (1/2) < dt
    · rw [if_pos h2, if_pos ⟨h1, h2⟩]
    · rw [if_neg h2, if_neg (by rintro ⟨_, h⟩; exact h2 h)]
  · rw [if_neg h1, if_neg (by rintro ⟨h, _⟩; exact h1 h)]

/-- Max hp is untouched by the overdrive tick. -/
lemma overdriveTick_player_maxHp (e : Engine) (dt : ℚ) :
    (overdriveTick e dt).player.maxHp = e.player.maxHp := by
  simp only [overdriveTick, createDamageNumber, emit]
  by_cases h1 : 0 < e.player.overdriveTimer
  · rw [if_pos h1]
    by_cases h2 : jsMod (e.player.overdriveTimer - dt) (1/2) < dt
    · rw [if_pos h2]
    · rw [if_neg h2]
  · rw [if_neg h1]

/-- The overdrive timer after one overdrive tick. -/
lemma overdriveTick_player_overdriveTimer (e : Engine) (dt : ℚ) :
    (overdriveTick e dt).player.overdriveTimer =
      if 0 < e.player.overdriveTimer then e.player.overdriveTimer - dt
      else e.player.overdriveTimer := by
  simp only [overdriveTick, createDamageNumber, emit]
  by_cases h1 : 0 < e.player.overdriveTimer
  · rw [if_pos h1, if_pos h1]
    by_cases h2 : jsMod (e.player.overdriveTimer - dt) (1/2) < dt
    · rw [if_pos h2]
    · rw [if_neg h2]
  · rw [if_neg h1, if_neg h1]

/-- The overdrive tick fires no onGameOver callback. -/
lemma gameOverCount_overdriveTick (e : Engine) (dt : ℚ) :
    gameOverCount (overdriveTick e dt) = gameOverCount e := by
  simp only [overdriveTick, createDamageNumber, emit]
  by_cases h1 : 0 < e.player.overdriveTimer
  · rw [if_pos h1]
    by_cases h2 : jsMod (e.player.overdriveTimer - dt) (1/2) < dt
    · rw [if_pos h2]
      simp [gameOverCount, List.filter_append]
    · rw [if_neg h2]
      rfl
  · rw [if_neg h1]

/-- The player record is untouched by a loop reset of the current
engine. -/
lemma triggerLoopReset_player (e : Engine) :
    (triggerLoopReset e).player = e.player := by
  simp only [triggerLoopReset, spawnBoss, playCutscene, saveCheckpoint,
    createDamageNumber, emit]
  split <;> split <;> rfl

/-- Starting the engine never changes the player record. -/
lemma start_player (e : Engine) : (start e).player = e.player := by
  simp only [start, saveGlobalProgress, saveCheckpoint, createDamageNumber,
    playCutscene, emit]
  split
  · rfl
  · split <;> rfl

/-- Starting the engine never changes the loop counter. -/
lemma start_loopCount (e : Engine) : (start e).loopCount = e.loopCount := by
  simp only [start, saveGlobalProgress, saveCheckpoint, createDamageNumber,
    playCutscene, emit]
  split
  · rfl
  · split <;> rfl

/-- Starting the engine never changes the score. -/
lemma start_score (e : Engine) : (start e).score = e.score := by
  simp only [start, saveGlobalProgress, saveCheckpoint, createDamageNumber,
    playCutscene, emit]
  split
  · rfl
  · split <;> rfl

/-- Starting the engine never changes the unlocked-lore set. -/
lemma start_unlockedLoreIds (e : Engine) :
    (start e).unlockedLoreIds = e.unlockedLoreIds := by
  simp only [start, saveGlobalProgress, saveCheckpoint, createDamageNumber,
    playCutscene, emit]
  split
  · rfl
  · split <;> rfl

/-- A loop reset advances the loop counter by exactly one. -/
lemma triggerLoopReset_loopCount (e : Engine) :
    (triggerLoopReset e).loopCount = e.loopCount + 1 := by
  simp only [triggerLoopReset, spawnBoss, playCutscene, saveCheckpoint,
    createDamageNumber, emit]
  split <;> split <;> rfl

/-- A loop reset restores the loop timer to the full loop duration. -/
lemma triggerLoopReset_loopTimer (e : Engine) :
    (triggerLoopReset e).loopTimer = LOOP_DURATION := by
  simp only [triggerLoopReset, spawnBoss, playCutscene, saveCheckpoint,
    createDamageNumber, emit]
  split <;> split <;> rfl

/-- In the non-boss branch a loop reset leaves every transient entity
collection untouched and signals level-up. -/
lemma triggerLoopReset_nonboss (e : Engine)
    (h : ¬ (e.loopCount + 1) % BOSS_LOOP_INTERVAL = 0) :
    (triggerLoopReset e).enemies = e.enemies ∧
    (triggerLoopReset e).bullets = e.bullets ∧
    (triggerLoopReset e).particles = e.particles ∧
    (triggerLoopReset e).pickups = e.pickups ∧
    (triggerLoopReset e).gravWells = e.gravWells ∧
    Event.levelUp ∈ (triggerLoopReset e).events := by
  simp only [triggerLoopReset, spawnBoss, playCutscene, saveCheckpoint,
    createDamageNumber, emit]
  by_cases h1 : e.loopCount = 1
  · rw [if_pos h1]
    try dsimp only
    rw [if_neg h]
    exact ⟨rfl, rfl, rfl, rfl, rfl, by simp⟩
  · rw [if_neg h1]
    try dsimp only
    rw [if_neg h]
    exact ⟨rfl, rfl, rfl, rfl, rfl, by simp⟩

/-- In both branches a loop reset leaves bullets, particles, pickups and
gravity wells untouched (spawnBoss replaces only the enemy list). -/
lemma triggerLoopReset_transients (e : Engine) :
    (triggerLoopReset e).bullets = e.bullets ∧
    (triggerLoopReset e).particles = e.particles ∧
    (triggerLoopReset e).pickups = e.pickups ∧
    (triggerLoopReset e).gravWells = e.gravWells := by
  simp only [triggerLoopReset, spawnBoss, playCutscene, saveCheckpoint,
    createDamageNumber, emit]
  split <;> split <;> exact ⟨rfl, rfl, rfl, rfl⟩

/-- In the non-boss branch a loop reset fires onLevelUp exactly once. -/
lemma levelUpCount_nonboss (e : Engine)
    (h : ¬ (e.loopCount + 1) % BOSS_LOOP_INTERVAL = 0) :
    levelUpCount (triggerLoopReset e) = levelUpCount e + 1 := by
  simp only [triggerLoopReset, spawnBoss, playCutscene, saveCheckpoint,
    createDamageNumber, emit]
  by_cases h1 : e.loopCount = 1
  · rw [if_pos h1]
    try dsimp only
    rw [if_neg h]
    simp [levelUpCount, List.filter_append]
  · rw [if_neg h1]
    try dsimp only
    rw [if_neg h]
    simp [levelUpCount, List.filter_append]

/-- In the boss branch a loop reset fires no onLevelUp at all: the boss
is spawned instead and no upgrade selection is offered. -/
lemma levelUpCount_boss (e : Engine)
    (h : (e.loopCount + 1) % BOSS_LOOP_INTERVAL = 0) :
    levelUpCount (triggerLoopReset e) = levelUpCount e := by
  simp only [triggerLoopReset, spawnBoss, playCutscene, saveCheckpoint,
    createDamageNumber, emit]
  by_cases h1 : e.loopCount = 1
  · rw [if_pos h1]
    try dsimp only
    rw [if_pos h]
    simp [levelUpCount, List.filter_append]
  · rw [if_neg h1]
    try dsimp only
    rw [if_pos h]
    simp [levelUpCount, List.filter_append]

/-- In the boss branch a loop reset replaces the enemy list with the
single scaled boss and raises the boss-loop flag. -/
lemma triggerLoopReset_boss (e : Engine)
    (h : (e.loopCount + 1) % BOSS_LOOP_INTERVAL = 0) :
    (triggerLoopReset e).enemies = [bossEnemy (e.loopCount + 1)] ∧
    (triggerLoopReset e).isBossLoop = true := by
  simp only [triggerLoopReset, spawnBoss, playCutscene, saveCheckpoint,
    createDamageNumber, emit]
  by_cases h1 : e.loopCount = 1
  · rw [if_pos h1]
    try dsimp only
    rw [if_pos h]
    exact ⟨rfl, rfl⟩
  · rw [if_neg h1]
    try dsimp only
    rw [if_pos h]
    exact ⟨rfl, rfl⟩

/-- The player record is untouched by killEnemy. -/
lemma killEnemy_player (e : Engine) (en : Enemy) (r1 r2 r3 : ℚ) :
    (killEnemy e en r1 r2 r3).player = e.player := by
  simp only [killEnemy, createParticles, emit]
  split
  · rw [triggerLoopReset_player]
    split
    · split <;> rfl
    · split <;> split <;> rfl
  · split
    · split <;> rfl
    · split <;> split <;> rfl

/-- A run of takeDamage calls starting from a dead player changes
nothing at all. -/
lemma runOps_dead : ∀ (ops : List RunOp), ops.all isDamage = true →
    ∀ e : Engine, e.player.hp ≤ 0 → runOps e ops = e
  | [], _, _, _ => rfl
  | op :: ops, h, e, hd => by
    rw [List.all_cons, Bool.and_eq_true] at h
    cases op with
    | tick dt => simp [isDamage] at h
    | damage a =>
      have hstep : runOps e (RunOp.damage a :: ops) = runOps (takeDamage e a) ops := rfl
      rw [hstep, takeDamage_noop e a hd]
      exact runOps_dead ops h.2 e hd

/-- Along a run of takeDamage calls only, at most one onGameOver event is
added: the guard makes every call after death a no-op. -/
lemma runOps_damage_only_count : ∀ (ops : List RunOp), ops.all isDamage = true →
    ∀ e : Engine, gameOverCount (runOps e ops) ≤ gameOverCount e + 1
  | [], _, _ => by simp [runOps]
  | op :: ops, h, e => by
    rw [List.all_cons, Bool.and_eq_true] at h
    cases op with
    | tick dt => simp [isDamage] at h
    | damage a =>
      have hstep : runOps e (RunOp.damage a :: ops) = runOps (takeDamage e a) ops := rfl
      rw [hstep]
      by_cases hd : e.player.hp ≤ 0
      · rw [takeDamage_noop e a hd, runOps_dead ops h.2 e hd]
        omega
      · by_cases hl : e.player.hp - a ≤ 0
        · have hdead : (takeDamage e a).player.hp ≤ 0 := by
            rw [takeDamage_player_hp, if_neg hd]
            exact hl
          rw [runOps_dead ops h.2 _ hdead, gameOverCount_takeDamage,
            if_pos ⟨by linarith, hl⟩]
        · have hcount : gameOverCount (takeDamage e a) = gameOverCount e := by
            rw [gameOverCount_takeDamage, if_neg (by rintro ⟨_, hx⟩; exact hl hx)]
            omega
          calc gameOverCount (runOps (takeDamage e a) ops)
              ≤ gameOverCount (takeDamage e a) + 1 :=
                runOps_damage_only_count ops h.2 _
            _ = gameOverCount e + 1 := by rw [hcount]

/-- Computation of the JavaScript remainder at the revival tick of the
counterexample run. -/
lemma jsMod_four_half : jsMod (4 : ℚ) (1/2) = 0 := by
  have h1 : ((4:ℚ) / (1/2)) = 8 := by norm_num
  have h2 : jsTrunc ((4:ℚ) / (1/2)) = 8 := by
    rw [h1]
    unfold jsTrunc
    norm_num
  unfold jsMod
  rw [h2]
  norm_num

/-- C1 (amended): in the current engine every loop transition resets the
per-loop timer to its maximum, advances the loop counter by one, and
leaves the whole player record (every stat-bundle field, hp and position)
unchanged; no transition restores health, and none clears bullets,
particles, pickups or gravity wells.  The enemy list is left untouched
when the incremented loop count is not a boss-interval multiple, and is
replaced by the single spawned boss when it is.  The claimed clearing of
all transient entities and the 50 percent-of-max capped health restore
exist only in the earlier engine revision startNextLoop, which also
recenters the player instead of preserving its position. -/
theorem C1_theorem :
    (∀ e : Engine,
      (triggerLoopReset e).player = e.player ∧
      (triggerLoopReset e).loopTimer = LOOP_DURATION ∧
      (triggerLoopReset e).loopCount = e.loopCount + 1 ∧
      (triggerLoopReset e).bullets = e.bullets ∧
      (triggerLoopReset e).particles = e.particles ∧
      (triggerLoopReset e).pickups = e.pickups ∧
      (triggerLoopReset e).gravWells = e.gravWells ∧
      (¬ (e.loopCount + 1) % BOSS_LOOP_INTERVAL = 0 →
        (triggerLoopReset e).enemies = e.enemies) ∧
      ((e.loopCount + 1) % BOSS_LOOP_INTERVAL = 0 →
        (triggerLoopReset e).enemies = [bossEnemy (e.loopCount + 1)])) ∧
    (∀ e2 : EngineV2,
      (startNextLoop e2).enemies = [] ∧
      (startNextLoop e2).bullets = [] ∧
      (startNextLoop e2).particles = 0 ∧
      (startNextLoop e2).pickups = [] ∧
      (startNextLoop e2).loopTimer = LOOP_DURATION ∧
      (startNextLoop e2).player.hp =
        min e2.player.maxHp (e2.player.hp + e2.player.maxHp * (1/2)) ∧
      (startNextLoop e2).player.maxHp = e2.player.maxHp ∧
      (startNextLoop e2).player.speedMult = e2.player.speedMult ∧
      (startNextLoop e2).player.damageMult = e2.player.damageMult ∧
      (startNextLoop e2).player.x = CANVAS_WIDTH / 2) := by
  constructor
  · intro e
    obtain ⟨hbu, hpa, hpi, hgw⟩ := triggerLoopReset_transients e
    exact ⟨triggerLoopReset_player e, triggerLoopReset_loopTimer e,
      triggerLoopReset_loopCount e, hbu, hpa, hpi, hgw,
      fun h => (triggerLoopReset_nonboss e h).1,
      fun h => (triggerLoopReset_boss e h).1⟩
  · intro e2
    simp only [startNextLoop, emitV2, startV2]
    split <;> exact ⟨rfl, rfl, rfl, rfl, rfl, rfl, rfl, rfl, rfl, rfl⟩

/-- C1 witness: at loop 2 with a live enemy on the field the transition
leaves the enemy list intact, and at the loop-4 boss entry the bullets
survive while the enemy list becomes the single boss. -/
theorem C1_witness :
    ((¬ (eC1.loopCount + 1) % BOSS_LOOP_INTERVAL = 0) ∧
      (triggerLoopReset eC1).enemies = eC1.enemies) ∧
    ((eC1boss.loopCount + 1) % BOSS_LOOP_INTERVAL = 0 ∧
      (triggerLoopReset eC1boss).bullets = eC1boss.bullets ∧
      (triggerLoopReset eC1boss).enemies = [bossEnemy (eC1boss.loopCount + 1)]) :=
  ⟨⟨by decide, (C1_theorem.1 eC1).2.2.2.2.2.2.2.1 (by decide)⟩,
   ⟨by decide, (C1_theorem.1 eC1boss).2.2.2.1,
    (C1_theorem.1 eC1boss).2.2.2.2.2.2.2.2 (by decide)⟩⟩

/-- C1 counterexample: in the current engine, a non-boss loop transition
from a state with one live enemy and 40 hp neither clears the enemy list
nor restores half of max health. -/
theorem C1_counterexample :
    ¬ ((triggerLoopReset eC1).enemies = [] ∧
      (triggerLoopReset eC1).player.hp =
        min eC1.player.maxHp (eC1.player.hp + eC1.player.maxHp * (1/2))) := by
  decide

/-- C2 (amended): takeDamage subtracts the full amount with no lower
clamp whenever the player is alive (so hp can become negative); with a
nonnegative amount it never raises hp above max, and the overdrive heal
step never raises hp above max either. -/
theorem C2_theorem :
    (∀ (e : Engine) (a : ℚ), 0 < e.player.hp →
      (takeDamage e a).player.hp = e.player.hp - a) ∧
    (∀ (e : Engine) (a : ℚ), 0 ≤ a → e.player.hp ≤ e.player.maxHp →
      (takeDamage e a).player.hp ≤ e.player.maxHp) ∧
    (∀ (e : Engine) (dt : ℚ), e.player.hp ≤ e.player.maxHp →
      (overdriveTick e dt).player.hp ≤ e.player.maxHp) := by
  refine ⟨?_, ?_, ?_⟩
  · intro e a h
    rw [takeDamage_player_hp, if_neg (by linarith)]
  · intro e a ha h
    rw [takeDamage_player_hp]
    split <;> linarith
  · intro e dt h
    rw [overdriveTick_player_hp]
    split
    · exact min_le_left _ _
    · exact h

/-- C2 witness: a fresh player hit for 30 ends at exactly 70 hp. -/
theorem C2_witness :
    (0:ℚ) < initialEngine.player.hp ∧
    (takeDamage initialEngine 30).player.hp = initialEngine.player.hp - 30 :=
  ⟨by norm_num [initialEngine, initialPlayer, PLAYER_BASE_HP],
   C2_theorem.1 initialEngine 30
     (by norm_num [initialEngine, initialPlayer, PLAYER_BASE_HP])⟩

/-- C2 counterexample: a player at 10 hp hit for 30 is left at minus 20
hp; the damage is not clamped to zero. -/
theorem C2_counterexample : ¬ (0 ≤ (takeDamage eC2 30).player.hp) := by
  rw [takeDamage_player_hp]
  norm_num [eC2, initialEngine, initialPlayer, PLAYER_BASE_HP]

/-- C3: saving a checkpoint and immediately loading it reproduces the
loop count, the score, every stat-bundle field and the unlocked-lore set
exactly. -/
theorem C3_theorem (e : Engine) :
    ∃ e2 : Engine, loadCheckpoint (saveCheckpoint e) = .ok e2 ∧
      e2.loopCount = e.loopCount ∧
      e2.score = e.score ∧
      e2.player.hp = e.player.hp ∧
      e2.player.maxHp = e.player.maxHp ∧
      e2.player.xp = e.player.xp ∧
      e2.player.speedMult = e.player.speedMult ∧
      e2.player.damageMult = e.player.damageMult ∧
      e2.player.fireRateMult = e.player.fireRateMult ∧
      e2.player.projectileCount = e.player.projectileCount ∧
      e2.player.piercing = e.player.piercing ∧
      e2.player.dashCooldownMult = e.player.dashCooldownMult ∧
      e2.player.homing = e.player.homing ∧
      e2.player.orbitals = e.player.orbitals ∧
      e2.player.lifesteal = e.player.lifesteal ∧
      e2.player.gravDash = e.player.gravDash ∧
      e2.unlockedLoreIds = e.unlockedLoreIds := by
  refine ⟨_, rfl, ?_, ?_, ?_, ?_, ?_, ?_, ?_, ?_, ?_, ?_, ?_, ?_, ?_, ?_, ?_, ?_⟩ <;>
    simp [emit, apply_ite Engine.player, apply_ite Engine.loopCount,
      apply_ite Engine.score, apply_ite Engine.unlockedLoreIds,
      start_player, start_loopCount, start_score, start_unlockedLoreIds,
      spawnBoss, playCutscene, checkpointDataOf, jsOr0_eq]

/-- C4 (amended): when the loop timer expires in a non-boss loop the
engine advances loopCount by exactly one; it then signals the
upgrade-selection state only when the incremented loop count is not a
boss-interval multiple (at a multiple the boss is spawned instead and no
level-up is signalled, so no upgrade selection is offered).  When the
selection state is reached, exactly 3 choices are drawn from the pool,
and selecting one applies that upgrade effect function to the stat
bundle and leaves loopCount unchanged, the advance having happened at
the reset, before the selection. -/
theorem C4_theorem :
    (∀ e : Engine, (triggerLoopReset e).loopCount = e.loopCount + 1) ∧
    (∀ e : Engine, ¬ (e.loopCount + 1) % BOSS_LOOP_INTERVAL = 0 →
      levelUpCount (triggerLoopReset e) = levelUpCount e + 1) ∧
    (∀ e : Engine, (e.loopCount + 1) % BOSS_LOOP_INTERVAL = 0 →
      levelUpCount (triggerLoopReset e) = levelUpCount e) ∧
    (∀ shuffled : List UpgradeId, shuffled.Perm GEAR_POOL →
      (getRandomUpgrades shuffled 3).length = 3 ∧
      ∀ u ∈ getRandomUpgrades shuffled 3, u ∈ GEAR_POOL) ∧
    (∀ (e : Engine) (u : UpgradeId),
      (applyUpgrade e u).player = applyEffect u e.player ∧
      (applyUpgrade e u).loopCount = e.loopCount) := by
  refine ⟨triggerLoopReset_loopCount, levelUpCount_nonboss, levelUpCount_boss,
    fun shuffled hperm => ⟨?_, ?_⟩, fun e u => ⟨rfl, rfl⟩⟩
  · rw [getRandomUpgrades, List.length_take, hperm.length_eq]
    rfl
  · intro u hu
    exact hperm.subset (List.take_subset _ _ hu)

/-- C4 witness: the loop-2 expiry signals exactly one level-up while the
loop-4 expiry signals none, the draw from the pool itself yields 3
choices, and the applied upgrade leaves loopCount at its value. -/
theorem C4_witness :
    ((¬ (eC4.loopCount + 1) % BOSS_LOOP_INTERVAL = 0) ∧
      levelUpCount (triggerLoopReset eC4) = levelUpCount eC4 + 1) ∧
    ((eC4boss.loopCount + 1) % BOSS_LOOP_INTERVAL = 0 ∧
      levelUpCount (triggerLoopReset eC4boss) = levelUpCount eC4boss) ∧
    (getRandomUpgrades GEAR_POOL 3).length = 3 ∧
    (applyUpgrade eC4 UpgradeId.dmg_boost).loopCount = eC4.loopCount :=
  ⟨⟨by decide, C4_theorem.2.1 eC4 (by decide)⟩,
   ⟨by decide, C4_theorem.2.2.1 eC4boss (by decide)⟩,
   (C4_theorem.2.2.2.1 GEAR_POOL (List.Perm.refl _)).1,
   (C4_theorem.2.2.2.2 eC4 UpgradeId.dmg_boost).2⟩

/-- C4 counterexample: selecting an upgrade does not advance loopCount;
applyUpgrade leaves the loop counter exactly where the reset put it. -/
theorem C4_counterexample :
    ¬ (applyUpgrade eC4 UpgradeId.dmg_boost).loopCount = eC4.loopCount + 1 := by
  decide

/-- C5 (amended): with no persisted checkpoint record, loadCheckpoint
falls back to a fresh run (full reset then start) without throwing; with
a malformed persisted blob the JSON.parse failure propagates: the resume
path throws instead of treating the blob as absent. -/
theorem C5_theorem :
    (∀ e : Engine, e.storedCheckpoint = none →
      loadCheckpoint e = .ok (start (reset e))) ∧
    (∀ e : Engine, e.storedCheckpoint = some .malformed →
      loadCheckpoint e = .error ()) := by
  constructor
  · intro e h
    unfold loadCheckpoint
    rw [h]
  · intro e h
    unfold loadCheckpoint
    rw [h]

/-- C5 witness: the fresh engine has no stored record and resumes into a
fresh run; the corrupted store errors. -/
theorem C5_witness :
    loadCheckpoint initialEngine = .ok (start (reset initialEngine)) ∧
    loadCheckpoint eC5 = .error () :=
  ⟨C5_theorem.1 initialEngine rfl, C5_theorem.2 eC5 rfl⟩

/-- C5 counterexample: on a malformed persisted blob the resume path
throws (the parse error escapes loadCheckpoint), contradicting the claim
that it never throws. -/
theorem C5_counterexample : loadCheckpoint eC5 = .error () := rfl

/-- C6: an enemy bullet overlapping the player passes through with the
whole engine state (hp included) unchanged while the player is dashing;
when not dashing (and the player is alive) the overlap subtracts the
bullet damage from hp and destroys the bullet. -/
theorem C6_theorem (e : Engine) (b : Bullet) (dt : ℚ)
    (halive : bulletExpired (moveBullet b dt) = false)
    (hhit : circleHit (moveBullet b dt).x (moveBullet b dt).y
      (moveBullet b dt).radius e.player.x e.player.y e.player.radius = true) :
    (e.player.dashing = true →
      enemyBulletStep e b dt = (e, some (moveBullet b dt))) ∧
    (e.player.dashing = false → 0 < e.player.hp →
      (enemyBulletStep e b dt).2 = none ∧
      (enemyBulletStep e b dt).1.player.hp = e.player.hp - b.damage) := by
  constructor
  · intro hd
    simp [enemyBulletStep, halive, hhit, hd]
  · intro hd hhp
    constructor
    · simp [enemyBulletStep, halive, hhit, hd]
    · simp only [enemyBulletStep, halive, hhit, hd]
      simp [createParticles]
      rw [takeDamage_player_hp, if_neg (by linarith)]
      rfl

/-- C6 witness: a live enemy bullet sitting on a dashing player passes
through and the state is unchanged. -/
theorem C6_witness :
    bulletExpired (moveBullet bC6 0) = false ∧
    enemyBulletStep eC6 bC6 0 = (eC6, some (moveBullet bC6 0)) := by
  have hA : bulletExpired (moveBullet bC6 0) = false := by
    norm_num [bulletExpired, moveBullet, bC6, CANVAS_WIDTH, CANVAS_HEIGHT]
  have hB : circleHit (moveBullet bC6 0).x (moveBullet bC6 0).y
      (moveBullet bC6 0).radius eC6.player.x eC6.player.y eC6.player.radius
      = true := by
    norm_num [circleHit, moveBullet, bC6, eC6, initialEngine, initialPlayer,
      CANVAS_WIDTH, CANVAS_HEIGHT]
  exact ⟨hA, (C6_theorem eC6 bC6 0 hA hB).1 rfl⟩

/-- C7: a live player bullet with piercing 0 is consumed by its first
enemy hit (and by nothing else: with no overlapping enemy it survives),
a bullet with piercing 1 always survives the collision phase, an expired
or out-of-bounds bullet is removed regardless, and only the first
overlapping enemy is damaged. -/
theorem C7_theorem (e : Engine) (b : Bullet) (r1 r2 r3 : ℚ) :
    (bulletExpired b = true → (playerBulletCore e b r1 r2 r3).2 = none) ∧
    (bulletExpired b = false → splitFirstHit b e.enemies = none →
      playerBulletCore e b r1 r2 r3 = (e, some b)) ∧
    (bulletExpired b = false → e.player.piercing = 0 →
      ∀ pre en post, splitFirstHit b e.enemies = some (pre, en, post) →
      (playerBulletCore e b r1 r2 r3).2 = none) ∧
    (bulletExpired b = false → e.player.piercing = 1 →
      (playerBulletCore e b r1 r2 r3).2 = some b) ∧
    (∀ pre en post, bulletExpired b = false →
      splitFirstHit b e.enemies = some (pre, en, post) →
      0 < en.hp - (if 0 < e.player.overdriveTimer then b.damage * (3/2) else b.damage) →
      (playerBulletCore e b r1 r2 r3).1.enemies =
        pre ++ { en with hp := en.hp -
          (if 0 < e.player.overdriveTimer then b.damage * (3/2) else b.damage) } :: post) := by
  refine ⟨?_, ?_, ?_, ?_, ?_⟩
  · intro h
    simp [playerBulletCore, h]
  · intro h hn
    simp [playerBulletCore, h, hn]
  · intro h hp0 pre en post hs
    by_cases hk : en.hp -
        (if 0 < e.player.overdriveTimer then b.damage * (3/2) else b.damage) ≤ 0
    · simp [playerBulletCore, h, hs, hk, killEnemy_player,
        createParticles, createDamageNumber, hp0]
    · simp [playerBulletCore, h, hs, hk, createParticles, createDamageNumber, hp0]
  · intro h hp1
    rcases hsplit : splitFirstHit b e.enemies with _ | ⟨⟨pre, en, post⟩⟩
    · simp [playerBulletCore, h, hsplit]
    · by_cases hk2 : en.hp -
          (if 0 < e.player.overdriveTimer then b.damage * (3/2) else b.damage) ≤ 0
      · simp [playerBulletCore, h, hsplit, hk2, killEnemy_player,
          createParticles, createDamageNumber, hp1]
      · simp [playerBulletCore, h, hsplit, hk2,
          createParticles, createDamageNumber, hp1]
  · intro pre en post h hs hpos
    have hk : ¬ en.hp -
        (if 0 < e.player.overdriveTimer then b.damage * (3/2) else b.damage) ≤ 0 := by
      linarith
    by_cases hpc : e.player.piercing = 0 <;>
      simp [playerBulletCore, h, hs, hk, hpc,
        createParticles, createDamageNumber]

/-- C7 witness: a non-piercing bullet overlapping a tough enemy is
consumed by the hit. -/
theorem C7_witness :
    bulletExpired bC7 = false ∧ (playerBulletCore eC7 bC7 0 0 0).2 = none := by
  have h1 : bulletExpired bC7 = false := by
    norm_num [bulletExpired, bC7, CANVAS_WIDTH, CANVAS_HEIGHT]
  have h2 : splitFirstHit bC7 eC7.enemies = some ([], enC7, []) := by
    simp only [eC7, initialEngine, splitFirstHit]
    norm_num [circleHit, bC7, enC7]
  exact ⟨h1, (C7_theorem eC7 bC7 0 0 0).2.2.1 h1 rfl [] enC7 [] h2⟩

/-- C8: while a boss entity is present the periodic spawner produces no
ordinary enemy even with an elapsed spawn timer; with no boss present and
an elapsed timer, exactly the one spawned enemy is appended. -/
theorem C8_theorem (e : Engine) (dt : ℚ) (newEnemy : Enemy) (newTimer : ℚ) :
    (bossAlive e.enemies = true →
      (spawnStep e dt newEnemy newTimer).enemies = e.enemies ∧
      (spawnStep e dt newEnemy newTimer).spawnTimer = e.spawnTimer - dt) ∧
    (bossAlive e.enemies = false → e.spawnTimer - dt ≤ 0 →
      (spawnStep e dt newEnemy newTimer).enemies = e.enemies ++ [newEnemy]) := by
  constructor
  · intro hb
    unfold spawnStep
    rw [if_neg (by rintro ⟨_, hx⟩; rw [hb] at hx; cases hx)]
    exact ⟨rfl, rfl⟩
  · intro hb ht
    unfold spawnStep
    rw [if_pos ⟨ht, hb⟩]

/-- C8 witness: with a live boss and the spawn timer already elapsed, no
enemy is spawned. -/
theorem C8_witness :
    bossAlive eC8.enemies = true ∧
    (spawnStep eC8 1 swarmerEx 1).enemies = eC8.enemies :=
  ⟨rfl, ((C8_theorem eC8 1 swarmerEx 1).1 rfl).1⟩

/-- C9: when the advanced loop count is a multiple of the boss interval,
the loop reset clears the arena into exactly one boss entity whose hp is
BOSS_BASE_HP times (1 + loopCount times 0.5). -/
theorem C9_theorem (e : Engine)
    (h : (e.loopCount + 1) % BOSS_LOOP_INTERVAL = 0) :
    (triggerLoopReset e).enemies = [bossEnemy (e.loopCount + 1)] ∧
    (triggerLoopReset e).loopCount = e.loopCount + 1 ∧
    (triggerLoopReset e).isBossLoop = true ∧
    (bossEnemy (e.loopCount + 1)).hp =
      BOSS_BASE_HP * (1 + ((e.loopCount + 1 : ℕ) : ℚ) * (1/2)) :=
  ⟨(triggerLoopReset_boss e h).1, triggerLoopReset_loopCount e,
   (triggerLoopReset_boss e h).2, rfl⟩

/-- C9 witness: finishing loop 4 spawns the single loop-5 boss. -/
theorem C9_witness :
    (eC9.loopCount + 1) % BOSS_LOOP_INTERVAL = 0 ∧
    (triggerLoopReset eC9).enemies = [bossEnemy (eC9.loopCount + 1)] :=
  ⟨by decide, (C9_theorem eC9 (by decide)).1⟩

/-- C10 (amended): takeDamage on a dead player is a complete no-op (no
state change, no callback); onGameOver is appended exactly on calls that
take hp from positive to nonpositive; along any run consisting of
takeDamage calls only it therefore fires at most once.  The at-most-once
guarantee does not extend to runs with overdrive healing, which can lift
a dead player back above zero hp. -/
theorem C10_theorem :
    (∀ (e : Engine) (a : ℚ), e.player.hp ≤ 0 → takeDamage e a = e) ∧
    (∀ (e : Engine) (a : ℚ), gameOverCount (takeDamage e a) =
      gameOverCount e +
        (if 0 < e.player.hp ∧ e.player.hp - a ≤ 0 then 1 else 0)) ∧
    (∀ ops : List RunOp, ops.all isDamage = true →
      ∀ e : Engine, gameOverCount (runOps e ops) ≤ gameOverCount e + 1) :=
  ⟨takeDamage_noop, gameOverCount_takeDamage, runOps_damage_only_count⟩

/-- C10 witness: a post-mortem hit is a no-op and a damage-only run fires
at most one game over. -/
theorem C10_witness :
    eDead.player.hp ≤ 0 ∧ takeDamage eDead 5 = eDead ∧
    opsDamageOnly.all isDamage = true ∧
    gameOverCount (runOps initialEngine opsDamageOnly) ≤
      gameOverCount initialEngine + 1 :=
  ⟨by decide, C10_theorem.1 eDead 5 (by decide), rfl,
   C10_theorem.2.2 opsDamageOnly rfl initialEngine⟩

/-- C10 counterexample: a run in which a lethal hit is followed by an
overdrive heal tick that lifts hp back to 1 and then a second lethal hit
fires onGameOver twice, refuting at-most-once per run. -/
theorem C10_counterexample : ¬ (gameOverCount (runOps eC10 opsC10) ≤ 1) := by
  have hrun : runOps eC10 opsC10 =
      takeDamage (overdriveTick (takeDamage (takeDamage eC10 101) 5) 1) 5 := rfl
  have h0hp : eC10.player.hp = 100 := rfl
  have h0max : eC10.player.maxHp = 100 := rfl
  have h0ot : eC10.player.overdriveTimer = 5 := rfl
  have h0cnt : gameOverCount eC10 = 0 := rfl
  have h1hp : (takeDamage eC10 101).player.hp = -1 := by
    rw [takeDamage_player_hp, h0hp]
    norm_num
  have h1max : (takeDamage eC10 101).player.maxHp = 100 := by
    rw [takeDamage_player_maxHp, h0max]
  have h1ot : (takeDamage eC10 101).player.overdriveTimer = 5 := by
    rw [takeDamage_player_overdriveTimer, h0ot]
  have h1cnt : gameOverCount (takeDamage eC10 101) = 1 := by
    rw [gameOverCount_takeDamage, h0cnt, h0hp,
      if_pos (by constructor <;> norm_num)]
  have h2hp : (takeDamage (takeDamage eC10 101) 5).player.hp = -1 := by
    rw [takeDamage_player_hp, h1hp, if_pos (by norm_num)]
  have h2max : (takeDamage (takeDamage eC10 101) 5).player.maxHp = 100 := by
    rw [takeDamage_player_maxHp, h1max]
  have h2ot : (takeDamage (takeDamage eC10 101) 5).player.overdriveTimer = 5 := by
    rw [takeDamage_player_overdriveTimer, h1ot]
  have h2cnt : gameOverCount (takeDamage (takeDamage eC10 101) 5) = 1 := by
    rw [gameOverCount_takeDamage, h1cnt, h1hp,
      if_neg (by rintro ⟨hx, _⟩; norm_num at hx)]
  have hmod : jsMod ((5:ℚ) - 1) (1/2) < 1 := by
    have h54 : ((5:ℚ) - 1) = 4 := by norm_num
    rw [h54, jsMod_four_half]
    norm_num
  have h3hp : (overdriveTick (takeDamage (takeDamage eC10 101) 5) 1).player.hp = 1 := by
    rw [overdriveTick_player_hp, h2ot, h2hp, h2max,
      if_pos ⟨by norm_num, hmod⟩]
    norm_num [min_def]
  have h3cnt : gameOverCount (overdriveTick (takeDamage (takeDamage eC10 101) 5) 1) = 1 := by
    rw [gameOverCount_overdriveTick, h2cnt]
  rw [hrun, gameOverCount_takeDamage, h3cnt, h3hp,
    if_pos ⟨by norm_num, by norm_num⟩]
  norm_num

end NeonLoop
